import Mathlib

/-!
# FINTARA LC system — verification of the core engines

Shallow embedding of the deterministic core of the FINTARA Letter-of-Credit
system (`src/lc-generator.js` and the server module `src/unnamed/part_001`):
the STP collateral decision engine, the clause composer, the fee calculator,
the mandatory-field validator, the discrepancy examiner, the MT700 renderer
and the amount-in-words converter.

Modelling conventions (JS → Lean):
* JS numbers are modelled as `ℚ` (the code only adds, multiplies, divides and
  compares; no NaN/Infinity arithmetic is exercised by the claims).
* A JS field that the source feeds through `parseFloat` is modelled as the
  parsed value, `Option ℚ`, where `none` stands for an absent/unparseable
  value; the source's defaulting (`x || d` and friends) is transcribed at
  each call site.
* Dates that the source only subtracts/compares are modelled as parsed epoch
  milliseconds (`Option ℚ`, `none` = absent or invalid).
* `Math.round` is `⌊x + 1/2⌋` (exactly JS semantics for finite inputs) and
  `round2 x = ⌊100·x + 1/2⌋ / 100`, as in the source's `round2`.
-/

/-- JS `Math.round`: round half towards positive infinity. -/
def jsRound (q : ℚ) : ℤ := ⌊q + 1/2⌋

/-- `round2` of `lc-generator.js`: `Math.round(n * 100) / 100`. -/
def round2 (q : ℚ) : ℚ := (jsRound (q * 100) : ℚ) / 100

/-- JS `x.toFixed(2)` on a parsed numeric value: round to two decimals
(ties rounded up, which agrees with JS on ties) and print both decimals. -/
def toFixed2 (q : ℚ) : String :=
  let n : ℤ := ⌊q * 100 + 1/2⌋
  let sign := if n < 0 then "-" else ""
  let a := n.natAbs
  let r := a % 100
  sign ++ toString (a / 100) ++ "." ++ (if r < 10 then "0" else "") ++ toString r

/-- JS `parseFloat(x) || d`: the parse failing (`none`, for `NaN`) or
producing `0` both fall back to the default. -/
def jsNumOr (x : Option ℚ) (d : ℚ) : ℚ :=
  match x with
  | none => d
  | some q => if q = 0 then d else q

-- ════════════════════════════════════════════════════════
-- STEP 9 — RULE ENGINE (`lcDecision`, src/unnamed/part_001)
-- ════════════════════════════════════════════════════════

/-- The decision strings `'YES' | 'NO' | 'REVIEW'` of the STP rule engine. -/
inductive Decision where
  | YES
  | NO
  | REVIEW
deriving DecidableEq, Repr

/-- Order on decisions for the monotonicity property: NO < REVIEW < YES. -/
def Decision.rank : Decision → Nat
  | .NO => 0
  | .REVIEW => 1
  | .YES => 2

/-- `COLLATERAL_MARGINS` of src/unnamed/part_001 (haircut fractions),
in source order. -/
def COLLATERAL_MARGINS : List (String × ℚ) :=
  [("FD", 0),
   ("LIQUID_SECURITY", 15/100),
   ("GOVT_BOND", 10/100),
   ("CASH", 0),
   ("PROPERTY", 40/100),
   ("MACHINERY", 50/100),
   ("RECEIVABLES", 25/100)]

/-- Result record of `lcDecision`. -/
structure LCDecisionResult where
  decision : Decision
  reason : String
  margin : Option ℚ
  eligibleValue : ℚ
deriving DecidableEq, Repr

/-- `lcDecision(collateralType, collateralValue, lcAmount)` of
src/unnamed/part_001 lines 331–344. -/
def lcDecision (collateralType : String) (collateralValue lcAmount : ℚ) :
    LCDecisionResult :=
  match COLLATERAL_MARGINS.lookup collateralType with
  | none =>
      { decision := .REVIEW,
        reason := "Unknown collateral type: " ++ collateralType ++
          ". Manual review required.",
        margin := none,
        eligibleValue := 0 }
  | some margin =>
      let eligibleValue := collateralValue * (1 - margin)
      let decision : Decision :=
        if eligibleValue ≥ lcAmount then .YES
        else if eligibleValue ≥ lcAmount * (75/100) then .REVIEW
        else .NO
      let reason : String :=
        match decision with
        | .YES => "Collateral sufficient. Eligible value " ++
            toFixed2 eligibleValue ++ " ≥ LC Amount " ++ toString lcAmount ++ "."
        | .REVIEW => "Collateral partially covers LC. Eligible " ++
            toFixed2 eligibleValue ++ " is 75-100% of LC Amount " ++
            toString lcAmount ++ ". Manual review advised."
        | .NO => "Insufficient collateral. Eligible value " ++
            toFixed2 eligibleValue ++ " < LC Amount " ++ toString lcAmount ++ "."
      { decision := decision,
        reason := reason,
        margin := some margin,
        eligibleValue := eligibleValue }

/-- Helper: on a known collateral type the decision is the three-way
threshold comparison of the haircut-discounted value. -/
theorem lcDecision_decision_known (t : String) (m v amt : ℚ)
    (h : COLLATERAL_MARGINS.lookup t = some m) :
    (lcDecision t v amt).decision =
      (if v * (1 - m) ≥ amt then Decision.YES
       else if v * (1 - m) ≥ amt * (75/100) then Decision.REVIEW
       else Decision.NO) := by
  simp only [lcDecision, h]

/-- Helper: on a known collateral type the eligible value is
`value × (1 − haircut)`. -/
theorem lcDecision_eligible_known (t : String) (m v amt : ℚ)
    (h : COLLATERAL_MARGINS.lookup t = some m) :
    (lcDecision t v amt).eligibleValue = v * (1 - m) := by
  simp only [lcDecision, h]

/-- Helper: every margin in the haircut table lies in `[0, 1]`. -/
theorem margin_bounds (t : String) (m : ℚ)
    (h : COLLATERAL_MARGINS.lookup t = some m) : 0 ≤ m ∧ m ≤ 1 := by
  simp only [COLLATERAL_MARGINS, List.lookup] at h
  repeat' split at h
  all_goals first
    | exact Option.noConfusion h
    | (obtain rfl : _ = m := Option.some.inj h; norm_num)

/-- C1: for every known collateral type, every collateral value and every LC
amount, `lcDecision` computes eligible value = value × (1 − haircut) using
the haircut table (FD 0%, CASH 0%, GOVT_BOND 10%, LIQUID_SECURITY 15%,
RECEIVABLES 25%, PROPERTY 40%, MACHINERY 50%) and returns YES iff
eligible ≥ lcAmount, REVIEW iff 0.75·lcAmount ≤ eligible < lcAmount, NO
otherwise; in particular FD/200/1250000 decides NO. -/
theorem lcDecision_known_spec (t : String) (m v amt : ℚ)
    (h : COLLATERAL_MARGINS.lookup t = some m) :
    (COLLATERAL_MARGINS.lookup "FD" = some 0 ∧
     COLLATERAL_MARGINS.lookup "CASH" = some 0 ∧
     COLLATERAL_MARGINS.lookup "GOVT_BOND" = some (10/100) ∧
     COLLATERAL_MARGINS.lookup "LIQUID_SECURITY" = some (15/100) ∧
     COLLATERAL_MARGINS.lookup "RECEIVABLES" = some (25/100) ∧
     COLLATERAL_MARGINS.lookup "PROPERTY" = some (40/100) ∧
     COLLATERAL_MARGINS.lookup "MACHINERY" = some (50/100)) ∧
    (lcDecision t v amt).eligibleValue = v * (1 - m) ∧
    ((lcDecision t v amt).decision = Decision.YES ↔ amt ≤ v * (1 - m)) ∧
    ((lcDecision t v amt).decision = Decision.REVIEW ↔
       amt * (75/100) ≤ v * (1 - m) ∧ v * (1 - m) < amt) ∧
    ((lcDecision t v amt).decision = Decision.NO ↔
       v * (1 - m) < amt ∧ v * (1 - m) < amt * (75/100)) ∧
    (lcDecision "FD" 200 1250000).decision = Decision.NO := by
  have hd := lcDecision_decision_known t m v amt h
  have hFD : COLLATERAL_MARGINS.lookup "FD" = some 0 := by
    simp [COLLATERAL_MARGINS, List.lookup]
  refine ⟨⟨hFD, ?_, ?_, ?_, ?_, ?_, ?_⟩,
    lcDecision_eligible_known t m v amt h, ?_, ?_, ?_, ?_⟩
  · simp [COLLATERAL_MARGINS, List.lookup]
  · simp [COLLATERAL_MARGINS, List.lookup]
  · simp [COLLATERAL_MARGINS, List.lookup]
  · simp [COLLATERAL_MARGINS, List.lookup]
  · simp [COLLATERAL_MARGINS, List.lookup]
  · simp [COLLATERAL_MARGINS, List.lookup]
  · rw [hd]
    split_ifs with h1 h2
    · exact iff_of_true rfl h1
    · exact iff_of_false (by decide) h1
    · exact iff_of_false (by decide) h1
  · rw [hd]
    split_ifs with h1 h2
    · exact iff_of_false (by decide) (fun hc => absurd hc.2 (not_lt.mpr h1))
    · exact iff_of_true rfl ⟨h2, not_le.mp h1⟩
    · exact iff_of_false (by decide) (fun hc => h2 hc.1)
  · rw [hd]
    split_ifs with h1 h2
    · exact iff_of_false (by decide) (fun hc => absurd hc.1 (not_lt.mpr h1))
    · exact iff_of_false (by decide) (fun hc => absurd hc.2 (not_lt.mpr h2))
    · exact iff_of_true rfl ⟨not_le.mp h1, not_le.mp h2⟩
  · rw [lcDecision_decision_known "FD" 0 200 1250000 hFD]
    norm_num

/-- Witness for C1 at the concrete input type=FD, value=200,
lcAmount=1,250,000: the decision is NO. -/
theorem lcDecision_known_spec_witness :
    (lcDecision "FD" 200 1250000).decision = Decision.NO :=
  (lcDecision_known_spec "FD" 0 200 1250000
    (by simp [COLLATERAL_MARGINS, List.lookup])).2.2.2.2.2

/-- C7: for every collateral type outside the haircut table, `lcDecision`
returns REVIEW with margin null, eligible value 0, and a reason naming the
unrecognized type (total — no exception). -/
theorem lcDecision_unknown_spec (t : String) (v amt : ℚ)
    (h : COLLATERAL_MARGINS.lookup t = none) :
    lcDecision t v amt =
      { decision := Decision.REVIEW,
        reason := "Unknown collateral type: " ++ t ++
          ". Manual review required.",
        margin := none,
        eligibleValue := 0 } := by
  simp only [lcDecision, h]

/-- Witness for C7 at the concrete unknown type "GOLD". -/
theorem lcDecision_unknown_spec_witness :
    lcDecision "GOLD" 500 100 =
      { decision := Decision.REVIEW,
        reason := "Unknown collateral type: " ++ "GOLD" ++
          ". Manual review required.",
        margin := none,
        eligibleValue := 0 } :=
  lcDecision_unknown_spec "GOLD" 500 100
    (by simp [COLLATERAL_MARGINS, List.lookup])

/-- C8: for a known collateral type and fixed LC amount, the decision is
monotone in the collateral value under the order NO < REVIEW < YES. -/
theorem lcDecision_value_monotone (t : String) (m amt v1 v2 : ℚ)
    (h : COLLATERAL_MARGINS.lookup t = some m) (hv : v1 ≤ v2) :
    (lcDecision t v1 amt).decision.rank ≤ (lcDecision t v2 amt).decision.rank := by
  have hm := margin_bounds t m h
  have he : v1 * (1 - m) ≤ v2 * (1 - m) :=
    mul_le_mul_of_nonneg_right hv (by linarith [hm.2])
  rw [lcDecision_decision_known t m v1 amt h,
      lcDecision_decision_known t m v2 amt h]
  split_ifs <;> simp [Decision.rank] <;> linarith

/-- Witness for C8: raising an FD collateral from 50 to 200 against LC
amount 100 does not lower the decision. -/
theorem lcDecision_value_monotone_witness :
    (lcDecision "FD" 50 100).decision.rank ≤
      (lcDecision "FD" 200 100).decision.rank :=
  lcDecision_value_monotone "FD" 0 100 50 200
    (by simp [COLLATERAL_MARGINS, List.lookup]) (by norm_num)

/-- C9: for every known collateral type and nonnegative collateral value,
an LC amount of 0 decides YES (eligible ≥ 0 = lcAmount), even at value 0. -/
theorem lcDecision_zero_lcAmount (t : String) (m v : ℚ)
    (h : COLLATERAL_MARGINS.lookup t = some m) (hv : 0 ≤ v) :
    (lcDecision t v 0).decision = Decision.YES := by
  have hm := margin_bounds t m h
  rw [lcDecision_decision_known t m v 0 h]
  have hnn : 0 ≤ v * (1 - m) := mul_nonneg hv (by linarith [hm.2])
  rw [if_pos (show v * (1 - m) ≥ 0 from hnn)]

/-- Witness for C9 at CASH collateral of value 0 against LC amount 0. -/
theorem lcDecision_zero_lcAmount_witness :
    (lcDecision "CASH" 0 0).decision = Decision.YES :=
  lcDecision_zero_lcAmount "CASH" 0 0
    (by simp [COLLATERAL_MARGINS, List.lookup]) le_rfl

-- ════════════════════════════════════════════════════════
-- UTILITY — Number to Words (`numberToWords`, lc-generator.js 885–907)
-- ════════════════════════════════════════════════════════

/-- The `ones` word table of `numberToWords`. -/
def onesWords : List String :=
  ["", "ONE", "TWO", "THREE", "FOUR", "FIVE", "SIX", "SEVEN", "EIGHT", "NINE",
   "TEN", "ELEVEN", "TWELVE", "THIRTEEN", "FOURTEEN", "FIFTEEN", "SIXTEEN",
   "SEVENTEEN", "EIGHTEEN", "NINETEEN"]

/-- The `tens` word table of `numberToWords`. -/
def tensWords : List String :=
  ["", "", "TWENTY", "THIRTY", "FORTY", "FIFTY", "SIXTY", "SEVENTY",
   "EIGHTY", "NINETY"]

/-- The inner `helper` of `numberToWords`: Indian-scale integer-to-words
(thousand, lakh = 10^5, crore = 10^7). -/
def numberWordsHelper (n : Nat) : String :=
  if n < 20 then onesWords.getD n ""
  else if n < 100 then
    tensWords.getD (n / 10) "" ++
      (if n % 10 ≠ 0 then " " ++ onesWords.getD (n % 10) "" else "")
  else if n < 1000 then
    onesWords.getD (n / 100) "" ++ " HUNDRED" ++
      (if n % 100 ≠ 0 then " AND " ++ numberWordsHelper (n % 100) else "")
  else if n < 100000 then
    numberWordsHelper (n / 1000) ++ " THOUSAND" ++
      (if n % 1000 ≠ 0 then " " ++ numberWordsHelper (n % 1000) else "")
  else if n < 10000000 then
    numberWordsHelper (n / 100000) ++ " LAKH" ++
      (if n % 100000 ≠ 0 then " " ++ numberWordsHelper (n % 100000) else "")
  else
    numberWordsHelper (n / 10000000) ++ " CRORE" ++
      (if n % 10000000 ≠ 0 then " " ++ numberWordsHelper (n % 10000000) else "")
termination_by n
decreasing_by all_goals omega

/-- `numberToWords(num)` of lc-generator.js on a parsed numeric input.
`!num` is `q = 0` for a number; the `isNaN` guard corresponds to a `NaN`
argument, which a numeric `ℚ` input never is. -/
def numberToWords (q : ℚ) : String :=
  if q = 0 then "ZERO"
  else
    let n : Nat := (⌊|q|⌋).toNat
    if n = 0 then "ZERO"
    else
      let dec : ℚ := q - (n : ℚ)
      let decStr : String :=
        if dec > 0 then " AND " ++ toString (jsRound (dec * 100)) ++ "/100"
        else ""
      numberWordsHelper n ++ decStr

/-- Helper: on a nonnegative integer input, `numberToWords` never appends a
fractional suffix: it is `"ZERO"` at 0 and `numberWordsHelper` otherwise. -/
theorem numberToWords_intCast (k : ℤ) (hk : 0 ≤ k) :
    numberToWords (k : ℚ) =
      (if k.toNat = 0 then "ZERO" else numberWordsHelper k.toNat) := by
  by_cases h0 : k = 0
  · subst h0
    simp [numberToWords]
  · have hne : ((k : ℚ)) ≠ 0 := by
      exact_mod_cast h0
    have habs : |((k : ℚ))| = (k : ℚ) := abs_of_nonneg (by exact_mod_cast hk)
    have hfl : ⌊((k : ℚ))⌋ = k := Int.floor_intCast k
    have hn0 : k.toNat ≠ 0 := by omega
    simp only [numberToWords, if_neg hne, habs, hfl, if_neg hn0]
    have hdec : ((k : ℚ)) - ((k.toNat : ℕ) : ℚ) = 0 := by
      have h1 : ((k.toNat : ℕ) : ℚ) = (k : ℚ) := by
        exact_mod_cast Int.toNat_of_nonneg hk
      rw [h1]
      ring
    rw [hdec]
    norm_num

/-- C10: for every strictly negative input, `numberToWords` returns the
Indian-scale words of `⌊|q|⌋` — no sign word, no fractional "AND NN/100"
suffix; in particular −5.5 converts to the words for 5, "FIVE". -/
theorem numberToWords_neg (q : ℚ) (hq : q < 0) :
    numberToWords q = numberToWords ((⌊|q|⌋ : ℤ) : ℚ) ∧
    numberToWords (-(11/2)) = "FIVE" := by
  constructor
  · have hq0 : q ≠ 0 := ne_of_lt hq
    have hfl0 : (0:ℤ) ≤ ⌊|q|⌋ := Int.floor_nonneg.mpr (abs_nonneg q)
    rw [numberToWords_intCast ⌊|q|⌋ hfl0]
    by_cases h0 : (⌊|q|⌋).toNat = 0
    · simp only [numberToWords, if_neg hq0, h0, if_pos rfl, if_true]
    · have hdec : q - (((⌊|q|⌋).toNat : ℕ) : ℚ) ≤ 0 := by
        have : (0:ℚ) ≤ (((⌊|q|⌋).toNat : ℕ) : ℚ) := by positivity
        linarith
      simp only [numberToWords, if_neg hq0, if_neg h0]
      rw [if_neg (not_lt.mpr hdec)]
      simp
  · have hq0 : (-(11/2) : ℚ) ≠ 0 := by norm_num
    have habs : |(-(11/2) : ℚ)| = 11/2 := by
      rw [abs_of_neg (by norm_num)]
      norm_num
    have hfl : ⌊(11/2 : ℚ)⌋ = 5 := by
      rw [Int.floor_eq_iff]
      norm_num
    have h5 : numberWordsHelper 5 = "FIVE" := by
      rw [numberWordsHelper.eq_def]
      norm_num [onesWords]
    have htn : ((5:ℤ)).toNat = 5 := rfl
    simp only [numberToWords, if_neg hq0, habs, hfl, htn]
    rw [if_neg (by norm_num : ¬(5:ℕ) = 0),
        if_neg (by norm_num : ¬((-(11/2) : ℚ) - ((5:ℕ) : ℚ) > 0)), h5]
    rfl

/-- Witness for C10 at the concrete input −5.5. -/
theorem numberToWords_neg_witness : numberToWords (-(11/2)) = "FIVE" :=
  (numberToWords_neg (-(11/2)) (by norm_num)).2

-- ════════════════════════════════════════════════════════
-- SECTION 2 — CLAUSE AUTO-GENERATOR (`generateClauses`, lc-generator.js 87–177)
-- ════════════════════════════════════════════════════════

/-- Input fields of `generateClauses`. Numeric fields are modelled as the
parsed value: `lcAmount` is `parseFloat(d.lcAmount || 0)` with `none` for an
absent/falsy field (⇒ 0), `tolerancePct` is `parseFloat(d.tolerancePct || 5)`
with `none` for an absent/falsy field (⇒ 5; a present string field parses to
its numeric value, so a field `"0"` is `some 0`). String fields use `""` for
a JS absent/falsy value. -/
structure ClauseInput where
  lcAmount : Option ℚ
  tolerancePct : Option ℚ
  incoterms : String
  specialInstructions : String
  paymentTerms : String
  lcType : String
  partialShipments : String
  transhipment : String
  issuingBank : String
deriving DecidableEq, Repr

/-- The named clauses returned by `generateClauses`; `inspectionClause` is
`null` (`none`) when no inspection keyword matches. -/
structure GeneratedClauses where
  partialShipmentClause : String
  transshipmentClause : String
  insuranceClause : String
  paymentClause : String
  toleranceClause : String
  inspectionClause : Option String
  chargesClause : String
  governingRulesClause : String
  undertakingClause : String
  presentationClause : String
deriving DecidableEq, Repr

/-- The regex `/(\d+)\s*day/i` of the payment clause: the captured digits of
the leftmost digit run that is followed by optional whitespace and `day`
(the caller has lowercased the text); `none` when nothing matches. -/
def matchDaysGroup : List Char → Option String
  | [] => none
  | c :: cs =>
    if c.isDigit then
      if ("day".data).isPrefixOf
          (((c :: cs).dropWhile Char.isDigit).dropWhile Char.isWhitespace) then
        some (String.mk ((c :: cs).takeWhile Char.isDigit))
      else matchDaysGroup cs
    else matchDaysGroup cs

/-- `generateClauses(d)` of lc-generator.js lines 87–177. -/
def generateClauses (d : ClauseInput) : GeneratedClauses :=
  let tol : ℚ := d.tolerancePct.getD 5
  let inco := d.incoterms.toUpper
  let specInstr := d.specialInstructions.toLower
  let payTerms := (if d.paymentTerms = "" then "At Sight" else d.paymentTerms).toLower
  let lcType := (if d.lcType = "" then "Sight" else d.lcType).toLower
  let partialShipmentClause :=
    if d.partialShipments = "Yes" then
      "Partial shipments are ALLOWED under this documentary credit."
    else
      "Partial shipments are NOT ALLOWED under this documentary credit. Each shipment must be for the full quantity specified herein."
  let transshipmentClause :=
    if d.transhipment = "Yes" then
      "Transshipment is ALLOWED provided the entire voyage is covered by the same Bill of Lading."
    else
      "Transshipment is NOT ALLOWED. Goods must be shipped directly from port of loading to port of discharge without intermediate transshipment."
  let insuranceClause :=
    if inco = "CIF" ∨ inco = "CIP" then
      "Insurance: As per Incoterms " ++ inco ++ ", the seller (Beneficiary) is responsible for arranging and paying for cargo insurance. An Insurance Certificate or Insurance Policy endorsed in blank, covering 110% of the invoice value for all risks, must be presented with the documents. Cover must be effective from the place of taking in charge to the place of final destination."
    else if inco = "FOB" ∨ inco = "EXW" ∨ inco = "FCA" ∨ inco = "FAS" then
      "Insurance: As per Incoterms " ++ inco ++ ", insurance is the responsibility of the Buyer (Applicant). The Beneficiary is not required to present an insurance document. However, packing must ensure goods are adequately protected during transit."
    else if inco = "DAP" ∨ inco = "DDP" ∨ inco = "DPU" then
      "Insurance: As per Incoterms " ++ inco ++ ", the seller (Beneficiary) bears risk until delivery at the named place. Insurance Certificate covering 110% of invoice value is required."
    else
      "Insurance: Insurance Certificate or Policy covering 110% of the invoice value for all risks from port of origin to final destination, endorsed in blank, must be presented unless otherwise agreed."
  let paymentClause :=
    if payTerms.containsSubstr "sight" ∨ lcType = "sight" then
      "Payment Clause: This documentary credit is available by PAYMENT AT SIGHT. Upon receipt of documents strictly complying with the terms and conditions of this credit, the Issuing Bank undertakes to effect payment immediately to the Beneficiary or their designated bank. Documents must be presented within the validity period of the credit."
    else if payTerms.containsSubstr "usance" ∨ payTerms.containsSubstr "days" ∨
        lcType = "usance" then
      let days := (matchDaysGroup payTerms.data).getD "90"
      "Payment Clause: This documentary credit is available by ACCEPTANCE. Drafts drawn at " ++ days ++ " days after Bill of Lading date / date of shipment will be accepted by the Drawee Bank. Payment will be effected at maturity of the accepted drafts. The Beneficiary may request discounting of accepted drafts subject to applicable banking charges."
    else if lcType = "standby" then
      "Payment Clause: This is a STANDBY Letter of Credit governed by UCP 600. Payment will be effected only upon presentation of a written demand certifying that the Applicant has failed to perform their contractual obligations, accompanied by the relevant documentation as specified herein."
    else if lcType = "revolving" then
      "Payment Clause: This is a REVOLVING documentary credit. Upon each utilisation and reinstatement, the available amount is automatically reinstated to the original amount without requiring any amendment, subject to the terms herein. Maximum cumulative drawings shall not exceed the total LC amount within the validity period."
    else
      "Payment Clause: Available by payment at the counters of the Issuing Bank against presentation of stipulated documents in strict compliance with the terms and conditions of this documentary credit."
  let toleranceClause :=
    if tol > 0 then
      "Tolerance Clause: A tolerance of " ++ toString tol ++ "% more or " ++
        toString tol ++ "% less in both the unit price and quantity of goods described herein is acceptable, provided the total drawing amount does not exceed the face value of this documentary credit. This tolerance applies per UCP 600 Article 30."
    else
      "Tolerance Clause: NO tolerance is permitted. The amount drawn must be exactly equal to the LC face value. Partial drawings are subject to the partial shipment clause."
  let inspKeywords := ["inspection", "sgs", "bv", "bureau veritas", "tüv", "tuv",
    "pre-shipment", "quality check", "ceig", "weight"]
  let hasInspection := inspKeywords.any (fun kw => specInstr.containsSubstr kw)
  let inspectionClause : Option String :=
    if hasInspection then
      let bodies : List String :=
        (if specInstr.containsSubstr "sgs" then ["SGS"] else []) ++
        (if specInstr.containsSubstr "bv" ∨ specInstr.containsSubstr "bureau veritas" then
          ["Bureau Veritas"] else []) ++
        (if specInstr.containsSubstr "tüv" ∨ specInstr.containsSubstr "tuv" then
          ["TÜV"] else []) ++
        (if specInstr.containsSubstr "ceig" then ["CEIG"] else [])
      let bodyStr := if bodies.length > 0 then String.intercalate "/" bodies
        else "an internationally recognised independent inspection agency"
      some ("Inspection Clause: A pre-shipment Inspection Certificate issued by " ++
        bodyStr ++ " confirming that the goods described herein comply with the contractual specifications, quality standards, and applicable regulatory requirements must be presented. Goods not accompanied by a valid Inspection Certificate will be deemed non-compliant.")
    else none
  let chargesClause :=
    "Charges Clause: All banking charges and commissions levied outside the Republic of India are for the account of the BENEFICIARY. All banking charges and commissions levied within the Republic of India are for the account of the APPLICANT. If any bank outside India deducts charges from the payment proceeds, the Beneficiary shall bear such deductions."
  let governingRulesClause :=
    "Governing Rules: This documentary credit is subject to the Uniform Customs and Practice for Documentary Credits, 2007 Revision, International Chamber of Commerce Publication No. 600 (UCP 600). In matters not covered by UCP 600, the laws of England and Wales shall apply."
  let undertakingClause :=
    "Banker's Undertaking: We, " ++
      (if d.issuingBank = "" then "Barclays Bank PLC" else d.issuingBank) ++
      ", hereby engage with the Beneficiary, the Confirming Bank (if any), and any Bona Fide Holder, that documents presented under and in strict compliance with the terms and conditions of this Credit will be duly honoured on presentation at our counters. This Credit is irrevocable and we undertake that it shall not be cancelled, modified, or amended without the prior written consent of the Beneficiary and the Applicant."
  let presentationClause :=
    "Presentation Period: Documents must be presented for negotiation or payment not later than 21 (twenty-one) days after the date of shipment, but in any event, not later than the expiry date and place of this credit as stated herein. Late presentation of documents will render them non-compliant under UCP 600 Article 14(c)."
  { partialShipmentClause := partialShipmentClause,
    transshipmentClause := transshipmentClause,
    insuranceClause := insuranceClause,
    paymentClause := paymentClause,
    toleranceClause := toleranceClause,
    inspectionClause := inspectionClause,
    chargesClause := chargesClause,
    governingRulesClause := governingRulesClause,
    undertakingClause := undertakingClause,
    presentationClause := presentationClause }

/-- C2: for every application with amount ≥ 0 and tolerance ≥ 0, the
tolerance clause states the percentage both ways (`…% more or …% less`)
when the tolerance is positive, and states that NO tolerance is permitted
when the tolerance is 0. -/
theorem toleranceClause_spec (d : ClauseInput) (amt tol : ℚ)
    (hamt : d.lcAmount = some amt) (hamt0 : 0 ≤ amt)
    (htol : d.tolerancePct = some tol) (htol0 : 0 ≤ tol) :
    (0 < tol →
      (generateClauses d).toleranceClause =
        "Tolerance Clause: A tolerance of " ++ toString tol ++ "% more or " ++
        toString tol ++ "% less in both the unit price and quantity of goods described herein is acceptable, provided the total drawing amount does not exceed the face value of this documentary credit. This tolerance applies per UCP 600 Article 30.") ∧
    (tol = 0 →
      (generateClauses d).toleranceClause =
        "Tolerance Clause: NO tolerance is permitted. The amount drawn must be exactly equal to the LC face value. Partial drawings are subject to the partial shipment clause.") := by
  constructor
  · intro hpos
    simp only [generateClauses, htol, Option.getD_some]
    rw [if_pos hpos]
  · intro hz
    subst hz
    simp only [generateClauses, htol, Option.getD_some]
    rw [if_neg (by norm_num)]

/-- Witness for C2 at tolerance 5 and amount 100: the positive branch
states the percentage in both directions. -/
theorem toleranceClause_spec_witness :
    (generateClauses
        ⟨some 100, some 5, "", "", "", "", "", "", ""⟩).toleranceClause =
      "Tolerance Clause: A tolerance of " ++ toString (5:ℚ) ++ "% more or " ++
      toString (5:ℚ) ++ "% less in both the unit price and quantity of goods described herein is acceptable, provided the total drawing amount does not exceed the face value of this documentary credit. This tolerance applies per UCP 600 Article 30." :=
  (toleranceClause_spec ⟨some 100, some 5, "", "", "", "", "", "", ""⟩ 100 5
    rfl (by norm_num) rfl (by norm_num)).1 (by norm_num)

-- ════════════════════════════════════════════════════════
-- SECTION 2B — LC FEE & COMMISSION CALCULATOR (lc-generator.js 188–285)
-- ════════════════════════════════════════════════════════

/-- One entry of `FEE_SCHEDULE.tenorBands`. -/
structure TenorBand where
  maxMonths : ℤ
  label : String
  minRate : ℚ
  maxRate : ℚ
  midRate : ℚ
deriving DecidableEq, Repr

/-- One entry of `FEE_SCHEDULE.fixedFees`. -/
structure FixedFee where
  amount : ℚ
  currency : String
  label : String
deriving DecidableEq, Repr

/-- The `FEE_SCHEDULE` constant of lc-generator.js. -/
structure FeeScheduleConfig where
  tenorBands : List TenorBand
  advisingFee : FixedFee
  amendmentFee : FixedFee
  courierSwiftCharges : FixedFee
  negotiationFeePct : ℚ
  confirmationPremiumPct : ℚ
  gstRate : ℚ
deriving DecidableEq, Repr

/-- `FEE_SCHEDULE` of lc-generator.js lines 188–203. -/
def FEE_SCHEDULE : FeeScheduleConfig :=
  { tenorBands :=
      [⟨3, "Up to 3 months", 10/100, 50/100, 30/100⟩,
       ⟨6, "Up to 6 months", 20/100, 1, 60/100⟩,
       ⟨12, "Up to 1 year", 40/100, 2, 120/100⟩,
       ⟨999, "Over 1 year", 60/100, 250/100, 155/100⟩],
    advisingFee := ⟨5000, "INR", "Advising Fee (Flat)"⟩,
    amendmentFee := ⟨2500, "INR", "Amendment Fee (per amendment)"⟩,
    courierSwiftCharges := ⟨3500, "INR", "Courier / SWIFT Charges"⟩,
    negotiationFeePct := 125/1000,
    confirmationPremiumPct := 15/100,
    gstRate := 18 }

/-- Input of `calculateLCFees`: `lcAmount` is `parseFloat(data.lcAmount || 0)`
with `none` for an absent/falsy field (⇒ 0); `lcExpiryDateMs` is
`new Date(data.lcExpiryDate)` in epoch milliseconds, `none` when the field is
absent or does not parse (`isNaN(expiryDate)`); `nowMs` is the ambient issue
date `new Date()`; `lcCurrency`/`confirmingBank` are the raw string fields
(`""` = absent/falsy). -/
structure FeeInput where
  lcAmount : Option ℚ
  lcCurrency : String
  lcExpiryDateMs : Option ℚ
  nowMs : ℚ
  confirmingBank : String
deriving DecidableEq, Repr

/-- Tenor in months: `max(1, Math.ceil(diffMs / (1000*60*60*24*30.44)))`,
default 3 when the expiry date is absent or unparseable. -/
def tenorMonthsOf (data : FeeInput) : ℤ :=
  match data.lcExpiryDateMs with
  | none => 3
  | some e => max 1 ⌈(e - data.nowMs) / (1000 * 60 * 60 * 24 * (3044/100))⌉

/-- The applicable tenor band: the first band (in `tenorBands` order, which
is ascending `maxMonths`) with `tenorMonths <= b.maxMonths`, falling back to
the last band. -/
def bandOf (data : FeeInput) : TenorBand :=
  (FEE_SCHEDULE.tenorBands.find? (fun b => tenorMonthsOf data ≤ b.maxMonths)).getD
    (FEE_SCHEDULE.tenorBands.getD (FEE_SCHEDULE.tenorBands.length - 1)
      ⟨0, "", 0, 0, 0⟩)

/-- `!!(data.confirmingBank && data.confirmingBank.trim())`. -/
def hasConfirmationOf (data : FeeInput) : Bool :=
  data.confirmingBank != "" && data.confirmingBank.trim != ""

/-- `totalVariableFees`: issuance commission + negotiation fee +
confirmation premium (the last only with a confirming bank). -/
def totalVariableFeesOf (data : FeeInput) : ℚ :=
  let amount := data.lcAmount.getD 0
  amount * (bandOf data).midRate / 100 +
    amount * FEE_SCHEDULE.negotiationFeePct / 100 +
    (if hasConfirmationOf data then
      amount * FEE_SCHEDULE.confirmationPremiumPct / 100
     else 0)

/-- `totalFeesBeforeGST`: variable fees plus the fixed advising and
courier/SWIFT fees. -/
def totalFeesBeforeGSTOf (data : FeeInput) : ℚ :=
  totalVariableFeesOf data +
    (FEE_SCHEDULE.advisingFee.amount + FEE_SCHEDULE.courierSwiftCharges.amount)

/-- One row of the `breakdown` list. -/
structure FeeRow where
  item : String
  rate : String
  amount : ℚ
  currency : String
  feeType : String
deriving DecidableEq, Repr

/-- The return record of `calculateLCFees` (the nested `amendmentFee` object
is flattened into the three `amendmentFee*` fields). -/
structure LCFees where
  tenorMonths : ℤ
  tenorBand : String
  commissionRange : String
  appliedRate : ℚ
  currency : String
  lcAmount : ℚ
  breakdown : List FeeRow
  amendmentFeeAmount : ℚ
  amendmentFeeCurrency : String
  amendmentFeeNote : String
  subtotal : ℚ
  gstRate : ℚ
  gstAmount : ℚ
  grandTotal : ℚ
  totalVariableFees : ℚ
  totalFixedFees : ℚ
  note : String
deriving DecidableEq, Repr

/-- `calculateLCFees(data)` of lc-generator.js lines 210–283. -/
def calculateLCFees (data : FeeInput) : LCFees :=
  let amount : ℚ := data.lcAmount.getD 0
  let currency := (if data.lcCurrency = "" then "USD" else data.lcCurrency).toUpper
  let tenorMonths := tenorMonthsOf data
  let band := bandOf data
  let issuanceCommissionPct := band.midRate
  let issuanceCommission := amount * issuanceCommissionPct / 100
  let negotiationFee := amount * FEE_SCHEDULE.negotiationFeePct / 100
  let hasConfirmation := hasConfirmationOf data
  let confirmationPremium :=
    if hasConfirmation then amount * FEE_SCHEDULE.confirmationPremiumPct / 100
    else 0
  let advisingFee := FEE_SCHEDULE.advisingFee.amount
  let amendmentFee := FEE_SCHEDULE.amendmentFee.amount
  let courierSwift := FEE_SCHEDULE.courierSwiftCharges.amount
  let totalVariableFees := issuanceCommission + negotiationFee + confirmationPremium
  let totalFixedFees := advisingFee + courierSwift
  let gstOnVariable := totalVariableFees * FEE_SCHEDULE.gstRate / 100
  let gstOnFixed := totalFixedFees * FEE_SCHEDULE.gstRate / 100
  let totalFeesBeforeGST := totalVariableFees + totalFixedFees
  let totalGST := gstOnVariable + gstOnFixed
  let grandTotal := totalFeesBeforeGST + totalGST
  { tenorMonths := tenorMonths,
    tenorBand := band.label,
    commissionRange := toString band.minRate ++ "% – " ++ toString band.maxRate ++ "%",
    appliedRate := band.midRate,
    currency := currency,
    lcAmount := amount,
    breakdown :=
      [⟨"LC Issuance Commission", toString issuanceCommissionPct ++ "%",
        round2 issuanceCommission, currency, "variable"⟩,
       ⟨"Negotiation / Acceptance Fee", toString FEE_SCHEDULE.negotiationFeePct ++ "%",
        round2 negotiationFee, currency, "variable"⟩] ++
      (if hasConfirmation then
        [⟨"Confirmation Premium", toString FEE_SCHEDULE.confirmationPremiumPct ++ "%",
          round2 confirmationPremium, currency, "variable"⟩]
       else []) ++
      [⟨"Advising Fee (Flat)", "Flat", advisingFee, "INR", "fixed"⟩,
       ⟨"Courier / SWIFT Charges", "Flat", courierSwift, "INR", "fixed"⟩],
    amendmentFeeAmount := amendmentFee,
    amendmentFeeCurrency := "INR",
    amendmentFeeNote := "Per amendment, charged separately",
    subtotal := round2 totalFeesBeforeGST,
    gstRate := FEE_SCHEDULE.gstRate,
    gstAmount := round2 totalGST,
    grandTotal := round2 grandTotal,
    totalVariableFees := round2 totalVariableFees,
    totalFixedFees := round2 totalFixedFees,
    note := "Rates are indicative based on standard corporate schedule. Final rates subject to relationship pricing and credit assessment." }

/-- Helper: the applied band mid-rate as a four-way case split on the tenor. -/
theorem bandOf_midRate (data : FeeInput) :
    (bandOf data).midRate =
      (if tenorMonthsOf data ≤ 3 then (30:ℚ)/100
       else if tenorMonthsOf data ≤ 6 then 60/100
       else if tenorMonthsOf data ≤ 12 then 120/100
       else 155/100) := by
  unfold bandOf
  by_cases h3 : tenorMonthsOf data ≤ 3
  · simp [FEE_SCHEDULE, List.find?, h3]
  · by_cases h6 : tenorMonthsOf data ≤ 6
    · simp [FEE_SCHEDULE, List.find?, h3, h6]
    · by_cases h12 : tenorMonthsOf data ≤ 12
      · simp [FEE_SCHEDULE, List.find?, h3, h6, h12]
      · by_cases h999 : tenorMonthsOf data ≤ 999
        · simp [FEE_SCHEDULE, List.find?, h3, h6, h12, h999]
        · simp [FEE_SCHEDULE, List.find?, h3, h6, h12, h999]

/-- C5: the fee calculator computes tenor in months as
`max(1, ceil(diffMs / 30.44 days))` with default 3 when the expiry date is
absent/unparseable, applies the mid-rate of the first tenor band whose
inclusive `maxMonths` covers the tenor (0.30% ≤3, 0.60% ≤6, 1.20% ≤12,
1.55% above — so tenors 1, 3, 6, 12, 13 get rates 0.30, 0.30, 0.60, 1.20,
1.55), and the grand total is `round2(subtotal + subtotal × 0.18)` where
`subtotal` is the pre-GST fee total. -/
theorem calculateLCFees_spec (data : FeeInput) :
    ((data.lcExpiryDateMs = none → (calculateLCFees data).tenorMonths = 3) ∧
     (∀ e, data.lcExpiryDateMs = some e →
        (calculateLCFees data).tenorMonths =
          max 1 ⌈(e - data.nowMs) / (1000 * 60 * 60 * 24 * (3044/100))⌉)) ∧
    (calculateLCFees data).appliedRate =
      (if (calculateLCFees data).tenorMonths ≤ 3 then (30:ℚ)/100
       else if (calculateLCFees data).tenorMonths ≤ 6 then 60/100
       else if (calculateLCFees data).tenorMonths ≤ 12 then 120/100
       else 155/100) ∧
    ((calculateLCFees data).tenorMonths = 1 →
       (calculateLCFees data).appliedRate = 30/100) ∧
    ((calculateLCFees data).tenorMonths = 3 →
       (calculateLCFees data).appliedRate = 30/100) ∧
    ((calculateLCFees data).tenorMonths = 6 →
       (calculateLCFees data).appliedRate = 60/100) ∧
    ((calculateLCFees data).tenorMonths = 12 →
       (calculateLCFees data).appliedRate = 120/100) ∧
    ((calculateLCFees data).tenorMonths = 13 →
       (calculateLCFees data).appliedRate = 155/100) ∧
    (calculateLCFees data).grandTotal =
      round2 (totalFeesBeforeGSTOf data + totalFeesBeforeGSTOf data * (18/100)) := by
  have htm : (calculateLCFees data).tenorMonths = tenorMonthsOf data := rfl
  have har : (calculateLCFees data).appliedRate = (bandOf data).midRate := rfl
  have hcase := bandOf_midRate data
  refine ⟨⟨?_, ?_⟩, ?_, ?_, ?_, ?_, ?_, ?_, ?_⟩
  · intro h
    rw [htm]
    unfold tenorMonthsOf
    rw [h]
  · intro e h
    rw [htm]
    unfold tenorMonthsOf
    rw [h]
  · rw [har, htm, hcase]
  · intro h1
    rw [htm] at h1
    rw [har, hcase, h1]
    norm_num
  · intro h1
    rw [htm] at h1
    rw [har, hcase, h1]
    norm_num
  · intro h1
    rw [htm] at h1
    rw [har, hcase, h1]
    norm_num
  · intro h1
    rw [htm] at h1
    rw [har, hcase, h1]
    norm_num
  · intro h1
    rw [htm] at h1
    rw [har, hcase, h1]
    norm_num
  · show round2 _ = _
    congr 1
    unfold totalFeesBeforeGSTOf totalVariableFeesOf
    simp only [FEE_SCHEDULE]
    ring

-- ════════════════════════════════════════════════════════
-- SECTION 1 — MANDATORY FIELD VALIDATOR (`validateLC`, lc-generator.js 19–76)
-- ════════════════════════════════════════════════════════

/-- `MANDATORY_FIELDS` of lc-generator.js lines 19–30: `(key, label)`. -/
def MANDATORY_FIELDS : List (String × String) :=
  [("applicantName", "Applicant Name"),
   ("beneficiaryName", "Beneficiary Name"),
   ("lcAmount", "LC Amount"),
   ("lcCurrency", "LC Currency"),
   ("lcExpiryDate", "Expiry Date"),
   ("portLoading", "Port of Loading"),
   ("portDischarge", "Port of Discharge"),
   ("goodsDesc", "Description of Goods"),
   ("paymentTerms", "Payment Terms"),
   ("issuingBank", "Issuing Bank")]

/-- An application record as read by `validateLC`. The ten mandatory fields
carry the JS value's string form `String(val)` (`none` = null/undefined).
`latestShipDate` likewise. The `*Num`/`*Ms` fields are the parsed views the
warnings use: `lcAmountNum` is `parseFloat(data.lcAmount)` (`none` = NaN),
and the `*Ms` fields are `new Date(...)` in epoch milliseconds (`none` =
invalid date). -/
structure LCValidationData where
  applicantName : Option String
  beneficiaryName : Option String
  lcAmount : Option String
  lcCurrency : Option String
  lcExpiryDate : Option String
  portLoading : Option String
  portDischarge : Option String
  goodsDesc : Option String
  paymentTerms : Option String
  issuingBank : Option String
  latestShipDate : Option String
  lcAmountNum : Option ℚ
  latestShipDateMs : Option ℚ
  lcExpiryDateMs : Option ℚ
deriving DecidableEq, Repr

/-- Field access by the `key` strings of `MANDATORY_FIELDS`. -/
def getField (d : LCValidationData) (key : String) : Option String :=
  if key = "applicantName" then d.applicantName
  else if key = "beneficiaryName" then d.beneficiaryName
  else if key = "lcAmount" then d.lcAmount
  else if key = "lcCurrency" then d.lcCurrency
  else if key = "lcExpiryDate" then d.lcExpiryDate
  else if key = "portLoading" then d.portLoading
  else if key = "portDischarge" then d.portDischarge
  else if key = "goodsDesc" then d.goodsDesc
  else if key = "paymentTerms" then d.paymentTerms
  else if key = "issuingBank" then d.issuingBank
  else none

/-- Line 43: `val !== undefined && val !== null && String(val).trim() !== ''
&& String(val).trim() !== '0'`. -/
def isPresent (val : Option String) : Bool :=
  match val with
  | none => false
  | some s => s.trim != "" && s.trim != "0"

/-- One `fieldStatus` entry: `{ label, present, value }`. -/
structure FieldStatusEntry where
  label : String
  present : Bool
  value : Option String
deriving DecidableEq, Repr

/-- The return record of `validateLC`. -/
structure ValidationResult where
  valid : Bool
  missing : List String
  warnings : List String
  fieldStatus : List (String × FieldStatusEntry)
deriving DecidableEq, Repr

/-- The `validCurrencies` list of lc-generator.js line 65. -/
def validCurrencies : List String :=
  ["USD", "EUR", "GBP", "INR", "JPY", "AED", "SGD", "CNY", "CHF", "CAD", "AUD"]

/-- `validateLC(data)` of lc-generator.js lines 37–76. -/
def validateLC (data : LCValidationData) : ValidationResult :=
  let fieldStatus := MANDATORY_FIELDS.map (fun f =>
    (f.1, { label := f.2, present := isPresent (getField data f.1),
            value := getField data f.1 : FieldStatusEntry }))
  let missing :=
    (MANDATORY_FIELDS.filter (fun f => !(isPresent (getField data f.1)))).map
      Prod.snd
  let dateOrderBad : Bool :=
    match data.latestShipDateMs, data.lcExpiryDateMs with
    | some shipD, some expD => shipD ≥ expD
    | _, _ => false
  let w1 : List String :=
    if data.latestShipDate.getD "" != "" && data.lcExpiryDate.getD "" != "" &&
        dateOrderBad then
      ["Latest shipment date (" ++ data.latestShipDate.getD "" ++
       ") must be before LC expiry date (" ++ data.lcExpiryDate.getD "" ++
       ") — UCP 600 Art. 29."]
    else []
  let amountBad : Bool :=
    match data.lcAmountNum with
    | some q => q ≤ 0
    | none => false
  let w2 : List String :=
    if data.lcAmount.getD "" != "" && amountBad then
      ["LC Amount must be greater than zero."]
    else []
  let w3 : List String :=
    match data.lcCurrency with
    | some s =>
      if s != "" && !(validCurrencies.contains s.toUpper) then
        ["Currency \"" ++ s ++ "\" is non-standard. Verify ISO 4217 code."]
      else []
    | none => []
  { valid := missing.isEmpty,
    missing := missing,
    warnings := w1 ++ w2 ++ w3,
    fieldStatus := fieldStatus }

/-- Helper: the presence test unfolded to its defining condition. -/
theorem isPresent_iff (v : Option String) :
    isPresent v = true ↔ ∃ s, v = some s ∧ s.trim ≠ "" ∧ s.trim ≠ "0" := by
  cases v <;> simp [isPresent]

/-- C6: the validator reports a mandatory field present iff its value is not
null and its trimmed string form is neither empty nor `"0"`; `valid` is true
iff `missing` is empty; `missing` is exactly the documented labels of the
non-present mandatory fields, in table order; and an application missing any
mandatory field gets `valid = false` with that field's documented label in
`missing`. -/
theorem validateLC_spec (d : LCValidationData) :
    (∀ key label, (key, label) ∈ MANDATORY_FIELDS →
       (validateLC d).fieldStatus.lookup key =
         some ⟨label, isPresent (getField d key), getField d key⟩ ∧
       (isPresent (getField d key) = true ↔
          ∃ s, getField d key = some s ∧ s.trim ≠ "" ∧ s.trim ≠ "0")) ∧
    ((validateLC d).valid = true ↔ (validateLC d).missing = []) ∧
    (validateLC d).missing =
      (MANDATORY_FIELDS.filter
        (fun f => !(isPresent (getField d f.1)))).map Prod.snd ∧
    (∀ key label, (key, label) ∈ MANDATORY_FIELDS →
       isPresent (getField d key) = false →
       (validateLC d).valid = false ∧ label ∈ (validateLC d).missing) := by
  have hmiss : (validateLC d).missing =
      (MANDATORY_FIELDS.filter
        (fun f => !(isPresent (getField d f.1)))).map Prod.snd := rfl
  have hvalid : (validateLC d).valid = (validateLC d).missing.isEmpty := rfl
  refine ⟨?_, ?_, hmiss, ?_⟩
  · intro key label hmem
    refine ⟨?_, isPresent_iff (getField d key)⟩
    simp only [MANDATORY_FIELDS, List.mem_cons, List.not_mem_nil, or_false,
      Prod.mk.injEq] at hmem
    rcases hmem with hm | hm | hm | hm | hm | hm | hm | hm | hm | hm <;>
      (obtain ⟨rfl, rfl⟩ := hm
       simp [validateLC, MANDATORY_FIELDS, List.lookup])
  · rw [hvalid]
    exact List.isEmpty_iff
  · intro key label hmem hnp
    have hlab : label ∈ (validateLC d).missing := by
      rw [hmiss]
      exact List.mem_map_of_mem Prod.snd
        (List.mem_filter.mpr ⟨hmem, by simp [hnp]⟩)
    refine ⟨?_, hlab⟩
    rw [hvalid]
    rcases h : (validateLC d).missing with _ | ⟨a, l⟩
    · rw [h] at hlab
      exact absurd hlab (List.not_mem_nil label)
    · simp [h]

-- ════════════════════════════════════════════════════════
-- DISCREPANCY REVIEW ENGINE (`runDiscrepancyCheck`, src/unnamed/part_001 966–1055)
-- ════════════════════════════════════════════════════════

/-- An `lc_applications` row as read by `runDiscrepancyCheck`. Numeric
fields are the `parseFloat` views (`none` = NaN/absent); date fields keep
the raw string (for truthiness and for the reported values) alongside the
parsed epoch-ms view `*_ms` (`none` = invalid date); `documents` is
`safeJSON(lcApp.documents, [])`. -/
structure LCAppRow where
  lc_amount : Option ℚ
  tolerance_pct : Option ℚ
  lc_currency : String
  latest_ship_date : String
  latest_ship_date_ms : Option ℚ
  port_loading : String
  port_discharge : String
  documents : List String
deriving DecidableEq, Repr

/-- A `document_presentations` row as read by `runDiscrepancyCheck`. -/
structure DocPresentationRow where
  invoice_amount : Option ℚ
  invoice_currency : String
  shipment_date : String
  shipment_date_ms : Option ℚ
  shipment_port : String
  discharge_port : String
  commercial_invoice : String
  bill_of_lading : String
  packing_list : String
  certificate_of_origin : String
  insurance_cert : String
  inspection_cert : String
  weight_cert : String
  submitted_at : String
  submitted_at_ms : Option ℚ
deriving DecidableEq, Repr

/-- One discrepancy as pushed by `addDisc`. -/
structure Discrepancy where
  field_name : String
  lc_value : String
  doc_value : String
  severity : String
  rule_matched : String
  description : String
deriving DecidableEq, Repr

/-- The summary block of the report. -/
structure DiscrepancySummary where
  overall : String
  fatal : Nat
  major : Nat
  minor : Nat
  total : Nat
deriving DecidableEq, Repr

/-- The return value of `runDiscrepancyCheck`. -/
structure DiscrepancyReport where
  discrepancies : List Discrepancy
  summary : DiscrepancySummary
deriving DecidableEq, Repr

/-- Rule 1 — amount check with tolerance. -/
def amountCheckDiscs (lcApp : LCAppRow) (p : DocPresentationRow) :
    List Discrepancy :=
  let lcAmt := jsNumOr lcApp.lc_amount 0
  let invoiceAmt := jsNumOr p.invoice_amount 0
  let tolerance := jsNumOr lcApp.tolerance_pct 5
  let maxAmt := lcAmt * (1 + tolerance / 100)
  let minAmt := lcAmt * (1 - tolerance / 100)
  if invoiceAmt > maxAmt then
    [⟨"Invoice Amount", lcApp.lc_currency ++ " " ++ toString lcAmt,
      p.invoice_currency ++ " " ++ toString invoiceAmt,
      "MAJOR", "AMOUNT_EXCEEDS_TOLERANCE",
      "Invoice amount exceeds LC amount + " ++ toString tolerance ++
        "% tolerance. Max allowed: " ++ toFixed2 maxAmt⟩]
  else if invoiceAmt < minAmt * (5/10) then
    [⟨"Invoice Amount", lcApp.lc_currency ++ " " ++ toString lcAmt,
      p.invoice_currency ++ " " ++ toString invoiceAmt,
      "MINOR", "AMOUNT_SIGNIFICANTLY_BELOW",
      "Invoice amount is significantly below LC amount."⟩]
  else []

/-- Rule 2 — currency mismatch. -/
def currencyCheckDiscs (lcApp : LCAppRow) (p : DocPresentationRow) :
    List Discrepancy :=
  let lcCur := lcApp.lc_currency.toUpper
  let docCur := p.invoice_currency.toUpper
  if docCur != "" && lcCur != "" && docCur != lcCur then
    [⟨"Currency", lcCur, docCur, "FATAL", "CURRENCY_MISMATCH",
      "Document currency does not match LC currency."⟩]
  else []

/-- Rule 3 — late shipment. -/
def lateShipmentDiscs (lcApp : LCAppRow) (p : DocPresentationRow) :
    List Discrepancy :=
  if lcApp.latest_ship_date != "" && p.shipment_date != "" then
    match lcApp.latest_ship_date_ms, p.shipment_date_ms with
    | some lcShipDate, some docShipDate =>
      if docShipDate > lcShipDate then
        [⟨"Shipment Date", lcApp.latest_ship_date, p.shipment_date,
          "MAJOR", "LATE_SHIPMENT",
          "Shipment date exceeds the latest allowed shipment date in the LC."⟩]
      else []
    | _, _ => []
  else []

/-- Rule 4 — port of loading mismatch. -/
def portLoadingDiscs (lcApp : LCAppRow) (p : DocPresentationRow) :
    List Discrepancy :=
  let lcPort := lcApp.port_loading.toLower.trim
  let docPort := p.shipment_port.toLower.trim
  if lcPort != "" && docPort != "" && !(docPort.containsSubstr lcPort) &&
      !(lcPort.containsSubstr docPort) then
    [⟨"Port of Loading", lcApp.port_loading, p.shipment_port,
      "MAJOR", "PORT_MISMATCH",
      "Shipment port on B/L does not match LC port of loading."⟩]
  else []

/-- Rule 5 — port of discharge mismatch. -/
def portDischargeDiscs (lcApp : LCAppRow) (p : DocPresentationRow) :
    List Discrepancy :=
  let lcDischarge := lcApp.port_discharge.toLower.trim
  let docDischarge := p.discharge_port.toLower.trim
  if lcDischarge != "" && docDischarge != "" &&
      !(docDischarge.containsSubstr lcDischarge) &&
      !(lcDischarge.containsSubstr docDischarge) then
    [⟨"Port of Discharge", lcApp.port_discharge, p.discharge_port,
      "MAJOR", "DISCHARGE_PORT_MISMATCH",
      "Discharge port on B/L does not match LC."⟩]
  else []

/-- The `presentedFlags` object of rule 6, in key order. -/
def presentedFlags (p : DocPresentationRow) : List (String × String) :=
  [("Commercial Invoice", p.commercial_invoice),
   ("Bill of Lading", p.bill_of_lading),
   ("Packing List", p.packing_list),
   ("Certificate of Origin", p.certificate_of_origin),
   ("Insurance Certificate", p.insurance_cert),
   ("Inspection Certificate", p.inspection_cert),
   ("Weight/Measurement Certificate", p.weight_cert)]

/-- `k.toLowerCase().split('/')[0].trim()` of rule 6. -/
def keyNeedle (k : String) : String := ((k.toLower.splitOn "/").headD "").trim

/-- Rule 6 — missing required documents. -/
def missingDocumentDiscs (lcApp : LCAppRow) (p : DocPresentationRow) :
    List Discrepancy :=
  lcApp.documents.filterMap (fun doc =>
    match (presentedFlags p).find?
        (fun kv => doc.toLower.containsSubstr (keyNeedle kv.1)) with
    | some kv =>
      if kv.2 == "" || kv.2 == "No" then
        some ⟨"Document: " ++ doc, "Required", "Not Presented",
          "MAJOR", "MISSING_DOCUMENT",
          "Required document \"" ++ doc ++ "\" was not presented."⟩
      else none
    | none => none)

/-- Rule 7 — late presentation (21 days after shipment). -/
def latePresentationDiscs (p : DocPresentationRow) : List Discrepancy :=
  if p.shipment_date != "" && p.submitted_at != "" then
    match p.shipment_date_ms, p.submitted_at_ms with
    | some shipDate, some submitDate =>
      let daysDiff := (submitDate - shipDate) / (1000 * 60 * 60 * 24)
      if daysDiff > 21 then
        [⟨"Presentation Period", "21 days max",
          toString (jsRound daysDiff) ++ " days",
          "FATAL", "LATE_PRESENTATION",
          "Documents presented more than 21 days after shipment date (UCP 600 violation)."⟩]
      else []
    | _, _ => []
  else []

/-- `runDiscrepancyCheck(lcApp, docPresentation)` of src/unnamed/part_001
lines 966–1055: the seven rules in source order, then the severity counts
and the overall verdict. -/
def runDiscrepancyCheck (lcApp : LCAppRow) (docPresentation : DocPresentationRow) :
    DiscrepancyReport :=
  let discrepancies :=
    amountCheckDiscs lcApp docPresentation ++
    (currencyCheckDiscs lcApp docPresentation ++
     (lateShipmentDiscs lcApp docPresentation ++
      (portLoadingDiscs lcApp docPresentation ++
       (portDischargeDiscs lcApp docPresentation ++
        (missingDocumentDiscs lcApp docPresentation ++
         latePresentationDiscs docPresentation)))))
  let fatalCount := (discrepancies.filter (fun d => d.severity == "FATAL")).length
  let majorCount := (discrepancies.filter (fun d => d.severity == "MAJOR")).length
  let minorCount := (discrepancies.filter (fun d => d.severity == "MINOR")).length
  let overall :=
    if fatalCount > 0 then "DISCREPANT"
    else if majorCount > 0 then "DISCREPANT"
    else if minorCount > 0 then "MINOR_DISCREPANCIES"
    else "COMPLIANT"
  { discrepancies := discrepancies,
    summary :=
      { overall := overall, fatal := fatalCount, major := majorCount,
        minor := minorCount, total := discrepancies.length } }

/-- Helper: a rule-6 field name `"Document: " ++ doc` is never
`"Invoice Amount"`. -/
theorem docField_ne_invoice (s : String) :
    ("Document: " ++ s) ≠ "Invoice Amount" := by
  intro h
  have h2 : ("Document: " ++ s).data = "Invoice Amount".data := by rw [h]
  rw [String.data_append] at h2
  simp at h2

/-- Helper: no rule other than the amount rule ever reports on the field
`"Invoice Amount"`. -/
theorem restDiscs_not_invoice (a : LCAppRow) (p : DocPresentationRow) :
    ∀ x ∈ (currencyCheckDiscs a p ++
      (lateShipmentDiscs a p ++
       (portLoadingDiscs a p ++
        (portDischargeDiscs a p ++
         (missingDocumentDiscs a p ++ latePresentationDiscs p))))),
      x.field_name ≠ "Invoice Amount" := by
  intro x hx
  simp only [List.mem_append] at hx
  rcases hx with h | h | h | h | h | h
  · simp only [currencyCheckDiscs] at h
    split_ifs at h <;> simp at h
    subst h
    simp
  · simp only [lateShipmentDiscs] at h
    split_ifs at h
    · rcases hms : a.latest_ship_date_ms with _ | lcD <;> rw [hms] at h <;>
        rcases hps : p.shipment_date_ms with _ | dD <;> rw [hps] at h <;>
        simp at h
      rcases h with ⟨-, rfl⟩
      simp
    · simp at h
  · simp only [portLoadingDiscs] at h
    split_ifs at h <;> simp at h
    subst h
    simp
  · simp only [portDischargeDiscs] at h
    split_ifs at h <;> simp at h
    subst h
    simp
  · simp only [missingDocumentDiscs] at h
    rcases List.mem_filterMap.mp h with ⟨doc, hdoc, hf⟩
    rcases hfind : (presentedFlags p).find?
        (fun kv => doc.toLower.containsSubstr (keyNeedle kv.1)) with _ | kv <;>
      rw [hfind] at hf
    · simp at hf
    · simp at hf
      rcases hf with ⟨-, rfl⟩
      exact docField_ne_invoice doc
  · simp only [latePresentationDiscs] at h
    split_ifs at h
    · rcases hms : p.shipment_date_ms with _ | sD <;> rw [hms] at h <;>
        rcases hsub : p.submitted_at_ms with _ | uD <;> rw [hsub] at h <;>
        simp at h
      rcases h with ⟨-, rfl⟩
      simp
    · simp at h

/-- Helper: for any predicate that only accepts the field `"Invoice Amount"`,
filtering the full report is filtering the amount rule's output. -/
theorem invoice_filter_eq (a : LCAppRow) (p : DocPresentationRow)
    (pred : Discrepancy → Bool)
    (hpred : ∀ x, pred x = true → x.field_name = "Invoice Amount") :
    (runDiscrepancyCheck a p).discrepancies.filter pred =
      (amountCheckDiscs a p).filter pred := by
  show (amountCheckDiscs a p ++ _).filter pred = _
  rw [List.filter_append]
  have hnil : List.filter pred
      (currencyCheckDiscs a p ++
        (lateShipmentDiscs a p ++
         (portLoadingDiscs a p ++
          (portDischargeDiscs a p ++
           (missingDocumentDiscs a p ++ latePresentationDiscs p))))) = [] :=
    List.filter_eq_nil_iff.mpr
      (fun x hx hpx => restDiscs_not_invoice a p x hx (hpred x hpx))
  rw [hnil, List.append_nil]

/-- Example LC application of the C3 spec examples: amount 100,000,
tolerance 5%, all other inputs empty. -/
def exLCApp : LCAppRow :=
  { lc_amount := some 100000, tolerance_pct := some 5, lc_currency := "",
    latest_ship_date := "", latest_ship_date_ms := none,
    port_loading := "", port_discharge := "", documents := [] }

/-- Example presentation with the given invoice amount and all other
inputs empty. -/
def exPres (amt : ℚ) : DocPresentationRow :=
  { invoice_amount := some amt, invoice_currency := "",
    shipment_date := "", shipment_date_ms := none,
    shipment_port := "", discharge_port := "",
    commercial_invoice := "", bill_of_lading := "", packing_list := "",
    certificate_of_origin := "", insurance_cert := "", inspection_cert := "",
    weight_cert := "", submitted_at := "", submitted_at_ms := none }

/-- C3: the examiner's amount rule yields exactly one MAJOR discrepancy on
"Invoice Amount" when the invoice amount exceeds `lcAmount × (1 + tol/100)`,
exactly one MINOR when it is (not above the upper bound and) below 50% of
`lcAmount × (1 − tol/100)`, and no amount discrepancy between those bounds;
in particular LC 100,000 at 5% tolerance gives no MAJOR amount discrepancy
at invoice 104,999 and exactly one at 106,000. -/
theorem runDiscrepancyCheck_amount_rule (a : LCAppRow) (p : DocPresentationRow) :
    (((runDiscrepancyCheck a p).discrepancies.filter
        (fun x => x.field_name == "Invoice Amount" && x.severity == "MAJOR")).length =
      if jsNumOr p.invoice_amount 0 >
          jsNumOr a.lc_amount 0 * (1 + jsNumOr a.tolerance_pct 5 / 100)
      then 1 else 0) ∧
    (((runDiscrepancyCheck a p).discrepancies.filter
        (fun x => x.field_name == "Invoice Amount" && x.severity == "MINOR")).length =
      if ¬(jsNumOr p.invoice_amount 0 >
             jsNumOr a.lc_amount 0 * (1 + jsNumOr a.tolerance_pct 5 / 100)) ∧
         jsNumOr p.invoice_amount 0 <
           jsNumOr a.lc_amount 0 * (1 - jsNumOr a.tolerance_pct 5 / 100) * (5/10)
      then 1 else 0) ∧
    (jsNumOr a.lc_amount 0 * (1 - jsNumOr a.tolerance_pct 5 / 100) * (5/10) ≤
        jsNumOr p.invoice_amount 0 →
     jsNumOr p.invoice_amount 0 ≤
        jsNumOr a.lc_amount 0 * (1 + jsNumOr a.tolerance_pct 5 / 100) →
     ((runDiscrepancyCheck a p).discrepancies.filter
        (fun x => x.field_name == "Invoice Amount")).length = 0) ∧
    ((runDiscrepancyCheck exLCApp (exPres 104999)).discrepancies.filter
        (fun x => x.field_name == "Invoice Amount" && x.severity == "MAJOR")).length
      = 0 ∧
    ((runDiscrepancyCheck exLCApp (exPres 106000)).discrepancies.filter
        (fun x => x.field_name == "Invoice Amount" && x.severity == "MAJOR")).length
      = 1 := by
  have hpredM : ∀ x : Discrepancy,
      (x.field_name == "Invoice Amount" && x.severity == "MAJOR") = true →
      x.field_name = "Invoice Amount" := by
    intro x hx
    simp [Bool.and_eq_true, beq_iff_eq] at hx
    exact hx.1
  have hpredm : ∀ x : Discrepancy,
      (x.field_name == "Invoice Amount" && x.severity == "MINOR") = true →
      x.field_name = "Invoice Amount" := by
    intro x hx
    simp [Bool.and_eq_true, beq_iff_eq] at hx
    exact hx.1
  have hpredA : ∀ x : Discrepancy,
      (x.field_name == "Invoice Amount") = true →
      x.field_name = "Invoice Amount" := by
    intro x hx
    simpa [beq_iff_eq] using hx
  have key : ∀ (a : LCAppRow) (p : DocPresentationRow),
      (((runDiscrepancyCheck a p).discrepancies.filter
          (fun x => x.field_name == "Invoice Amount" && x.severity == "MAJOR")).length =
        if jsNumOr p.invoice_amount 0 >
            jsNumOr a.lc_amount 0 * (1 + jsNumOr a.tolerance_pct 5 / 100)
        then 1 else 0) ∧
      (((runDiscrepancyCheck a p).discrepancies.filter
          (fun x => x.field_name == "Invoice Amount" && x.severity == "MINOR")).length =
        if ¬(jsNumOr p.invoice_amount 0 >
               jsNumOr a.lc_amount 0 * (1 + jsNumOr a.tolerance_pct 5 / 100)) ∧
           jsNumOr p.invoice_amount 0 <
             jsNumOr a.lc_amount 0 * (1 - jsNumOr a.tolerance_pct 5 / 100) * (5/10)
        then 1 else 0) ∧
      (jsNumOr a.lc_amount 0 * (1 - jsNumOr a.tolerance_pct 5 / 100) * (5/10) ≤
          jsNumOr p.invoice_amount 0 →
       jsNumOr p.invoice_amount 0 ≤
          jsNumOr a.lc_amount 0 * (1 + jsNumOr a.tolerance_pct 5 / 100) →
       ((runDiscrepancyCheck a p).discrepancies.filter
          (fun x => x.field_name == "Invoice Amount")).length = 0) := by
    intro a p
    refine ⟨?_, ?_, ?_⟩
    · rw [invoice_filter_eq a p _ hpredM]
      simp only [amountCheckDiscs]
      split_ifs with h1 h2 <;> simp
    · rw [invoice_filter_eq a p _ hpredm]
      simp only [amountCheckDiscs]
      by_cases h1 : jsNumOr p.invoice_amount 0 >
          jsNumOr a.lc_amount 0 * (1 + jsNumOr a.tolerance_pct 5 / 100)
      · rw [if_pos h1, if_neg (fun hc => hc.1 h1)]
        simp
      · rw [if_neg h1]
        by_cases h2 : jsNumOr p.invoice_amount 0 <
            jsNumOr a.lc_amount 0 * (1 - jsNumOr a.tolerance_pct 5 / 100) * (5/10)
        · rw [if_pos h2, if_pos (And.intro h1 h2)]
          simp
        · rw [if_neg h2, if_neg (fun hc => h2 hc.2)]
          simp
    · intro hlo hhi
      rw [invoice_filter_eq a p _ hpredA]
      simp only [amountCheckDiscs]
      split_ifs with h1 h2
      · exact absurd h1 (not_lt.mpr hhi)
      · exact absurd h2 (not_lt.mpr hlo)
      · simp
  refine ⟨(key a p).1, (key a p).2.1, (key a p).2.2, ?_, ?_⟩
  · rw [(key exLCApp (exPres 104999)).1]
    norm_num [exLCApp, exPres, jsNumOr]
  · rw [(key exLCApp (exPres 106000)).1]
    norm_num [exLCApp, exPres, jsNumOr]

-- ════════════════════════════════════════════════════════
-- STEP 11 — MT700 DRAFT GENERATOR (`generateMT700`, src/unnamed/part_001 349–465)
-- ════════════════════════════════════════════════════════

/-- JS `s || d` on string fields: `""` is the falsy case. -/
def jsOr (s d : String) : String := if s = "" then d else s

/-- JS dash removal: `s.replace` with the global dash regex. -/
def stripDashes (s : String) : String := String.mk (s.data.filter (fun c => c ≠ '-'))

/-- An `lc_applications` row as read by `generateMT700`: string fields raw
(`""` = absent/falsy), `lc_amount`/`tolerance_pct` as the parsed numeric
views, `documents` as the parsed JSON array. -/
structure MT700App where
  lc_type : String
  ref : String
  lc_expiry_date : String
  lc_expiry_place : String
  applicant_name : String
  applicant_address : String
  applicant_city : String
  applicant_country : String
  beneficiary_name : String
  beneficiary_address : String
  beneficiary_city : String
  beneficiary_country : String
  lc_amount : Option ℚ
  lc_currency : String
  tolerance_pct : Option ℚ
  latest_ship_date : String
  advising_bank : String
  payment_terms : String
  issuing_bank : String
  partial_shipments : String
  transhipment : String
  port_loading : String
  port_discharge : String
  goods_desc : String
  quantity : String
  unit_price : String
  hs_code : String
  country_origin : String
  incoterms : String
  documents : List String
  additional_docs : String
  special_instructions : String
  confirming_bank : String
deriving DecidableEq, Repr

/-- The `:46A:` first content line(s): `   ${docs.toUpperCase()}` with
`docs = safeJSON(app.documents, []).join(',\n   ')` — the join's newlines
split the interpolation into one output line per document. -/
def mt700DocsLines (documents : List String) : List String :=
  match documents with
  | [] => ["   "]
  | [d] => ["   " ++ d.toUpper]
  | d :: rest => ("   " ++ (d.toUpper ++ ",")) :: mt700DocsLines rest

/-- The 70-character `=` separator line of the MT700 template. -/
def mt700Separator : String := String.mk (List.replicate 70 '=')

/-- The MT700 message of `generateMT700(app)`, line by line (the template
literal split at its newlines). `dateStr` is the ambient
`new Date().toISOString().slice(0,10)` with dashes removed and `nowLocale` the
header's `new Date().toLocaleString('en-IN')`. -/
def generateMT700Lines (app : MT700App) (dateStr nowLocale : String) :
    List String :=
  let amt := toFixed2 (app.lc_amount.getD 0)
  let currency := (jsOr app.lc_currency "USD").toUpper
  let expiryFull := stripDashes app.lc_expiry_date
  let latestShip := stripDashes app.latest_ship_date
  let tolerance := jsNumOr app.tolerance_pct 5
  ["***** SWIFT MT700 — ISSUE OF A DOCUMENTARY CREDIT *****",
   "Generated by: Barclays LC System | " ++ nowLocale,
   mt700Separator,
   "",
   ":27: SEQUENCE OF TOTAL",
   "  1/1",
   "",
   ":40A: FORM OF DOCUMENTARY CREDIT",
   "  " ++ ((jsOr app.lc_type "SIGHT").toUpper ++ " IRREVOCABLE"),
   "",
   ":20: DOCUMENTARY CREDIT NUMBER",
   "  " ++ jsOr app.ref "TBD",
   "",
   ":31C: DATE OF ISSUE",
   "  " ++ dateStr,
   "",
   ":40E: APPLICABLE RULES",
   "  UCP LATEST VERSION",
   "",
   ":31D: DATE AND PLACE OF EXPIRY",
   "  " ++ (expiryFull ++ " " ++ app.lc_expiry_place.toUpper),
   "",
   ":50: APPLICANT",
   "  " ++ app.applicant_name.toUpper,
   "  " ++ app.applicant_address.toUpper,
   "  " ++ (app.applicant_city.toUpper ++ ", " ++ app.applicant_country.toUpper),
   "",
   ":59: BENEFICIARY",
   "  " ++ app.beneficiary_name.toUpper,
   "  " ++ app.beneficiary_address.toUpper,
   "  " ++ (app.beneficiary_city.toUpper ++ ", " ++ app.beneficiary_country.toUpper),
   "",
   ":32B: CURRENCY CODE, AMOUNT",
   "  " ++ (currency ++ amt),
   "",
   ":39A: PERCENTAGE CREDIT AMOUNT TOLERANCE",
   "  " ++ (toString tolerance ++ "/" ++ toString tolerance),
   "",
   ":41A: AVAILABLE WITH... BY...",
   "  " ++ (jsOr app.advising_bank "BARCLAYS BANK PLC").toUpper,
   "  " ++ ("BY " ++
     (if app.lc_type = "Sight" then "PAYMENT"
      else if app.lc_type = "Usance" then "ACCEPTANCE" else "NEGOTIATION")),
   "",
   ":42C: DRAFTS AT...",
   "  " ++ (if app.payment_terms = "At Sight" then "SIGHT"
           else (jsOr app.payment_terms "SIGHT").toUpper),
   "",
   ":42A: DRAWEE",
   "  " ++ (jsOr app.issuing_bank "BARCLAYS BANK PLC, INDIA").toUpper,
   "",
   ":43P: PARTIAL SHIPMENTS",
   "  " ++ (if app.partial_shipments = "Yes" then "ALLOWED" else "NOT ALLOWED"),
   "",
   ":43T: TRANSHIPMENT",
   "  " ++ (if app.transhipment = "Yes" then "ALLOWED" else "NOT ALLOWED"),
   "",
   ":44E: PORT OF LOADING/AIRPORT OF DEPARTURE",
   "  " ++ app.port_loading.toUpper,
   "",
   ":44F: PORT OF DISCHARGE/AIRPORT OF DESTINATION",
   "  " ++ app.port_discharge.toUpper,
   "",
   ":44C: LATEST DATE OF SHIPMENT",
   "  " ++ latestShip,
   "",
   ":44B: PLACE OF FINAL DESTINATION",
   "  " ++ app.port_discharge.toUpper,
   "",
   ":45A: DESCRIPTION OF GOODS AND/OR SERVICES",
   "  " ++ app.goods_desc.toUpper,
   "  " ++ ("QUANTITY: " ++ app.quantity.toUpper),
   "  " ++ ("UNIT PRICE: " ++ app.unit_price.toUpper),
   "  " ++ ("HS CODE: " ++ jsOr app.hs_code "N/A"),
   "  " ++ ("COUNTRY OF ORIGIN: " ++ app.country_origin.toUpper),
   "  " ++ ("INCOTERMS: " ++ app.incoterms.toUpper),
   "",
   ":46A: DOCUMENTS REQUIRED"] ++
  (mt700DocsLines app.documents ++
  (["   " ++ (if app.additional_docs ≠ "" then app.additional_docs.toUpper else ""),
   "",
   ":47A: ADDITIONAL CONDITIONS",
   "  " ++ (jsOr app.special_instructions "NIL").toUpper,
   "",
   ":71B: CHARGES",
   "  ALL BANKING CHARGES OUTSIDE INDIA ARE FOR ACCOUNT OF BENEFICIARY",
   "",
   ":48: PERIOD FOR PRESENTATION",
   "  DOCUMENTS TO BE PRESENTED WITHIN 21 DAYS AFTER DATE OF SHIPMENT",
   "  BUT WITHIN THE VALIDITY OF THE CREDIT.",
   "",
   ":49: CONFIRMATION INSTRUCTIONS",
   "  " ++ (if app.confirming_bank ≠ "" then "CONFIRM" else "WITHOUT"),
   "",
   ":53A: REIMBURSING BANK",
   "  " ++ (jsOr app.confirming_bank
            (jsOr app.advising_bank "BARCLAYS BANK PLC")).toUpper,
   "",
   ":78: INSTRUCTIONS TO THE PAYING/ACCEPTING/NEGOTIATING BANK",
   "  ALL DOCUMENTS MUST BE FORWARDED TO US IN ONE LOT BY COURIER.",
   "  UPON RECEIPT OF DOCUMENTS STRICTLY COMPLYING WITH THE TERMS AND",
   "  CONDITIONS OF THIS CREDIT, WE SHALL REIMBURSE AS PER YOUR INSTRUCTIONS.",
   "",
   ":72: SENDER TO RECEIVER INFORMATION",
   "  ISSUED SUBJECT TO UCP 600.",
   "  " ++ ("FOR BARCLAYS BANK PLC, " ++ (jsOr app.issuing_bank "INDIA").toUpper),
   "",
   mt700Separator,
   "***** END OF MT700 MESSAGE *****"]))

/-- The rendered MT700 text. -/
def generateMT700 (app : MT700App) (dateStr nowLocale : String) : String :=
  String.intercalate "\n" (generateMT700Lines app dateStr nowLocale)

/-- A line of the message is a SWIFT tag line iff it begins with `:`. -/
def isTagLine (l : String) : Bool := l.data.head? = some ':'

/-- The sequence of `:NN:` tags of a message, in order of appearance. -/
def mt700TagSeq (lines : List String) : List String :=
  (lines.filter isTagLine).map (fun l => String.mk (l.data.takeWhile (fun c => c ≠ ' ')))

/-- The fixed MT700 tag order of the wire contract. -/
def MT700_TAG_ORDER : List String :=
  [":27:", ":40A:", ":20:", ":31C:", ":40E:", ":31D:", ":50:", ":59:", ":32B:",
   ":39A:", ":41A:", ":42C:", ":42A:", ":43P:", ":43T:", ":44E:", ":44F:",
   ":44C:", ":44B:", ":45A:", ":46A:", ":47A:", ":71B:", ":48:", ":49:",
   ":53A:", ":78:", ":72:"]

/-- A string with no newline: interpolating it cannot create or destroy a
line of the template. -/
def noNL (s : String) : Prop := '\n' ∉ s.data

/-- All interpolated fields of an application are newline-free. -/
def mt700NewlineFree (app : MT700App) (dateStr nowLocale : String) : Prop :=
  noNL dateStr ∧ noNL nowLocale ∧
  noNL app.lc_type ∧ noNL app.ref ∧ noNL app.lc_expiry_date ∧
  noNL app.lc_expiry_place ∧ noNL app.applicant_name ∧
  noNL app.applicant_address ∧ noNL app.applicant_city ∧
  noNL app.applicant_country ∧ noNL app.beneficiary_name ∧
  noNL app.beneficiary_address ∧ noNL app.beneficiary_city ∧
  noNL app.beneficiary_country ∧ noNL app.lc_currency ∧
  noNL app.latest_ship_date ∧ noNL app.advising_bank ∧
  noNL app.payment_terms ∧ noNL app.issuing_bank ∧
  noNL app.port_loading ∧ noNL app.port_discharge ∧ noNL app.goods_desc ∧
  noNL app.quantity ∧ noNL app.unit_price ∧ noNL app.hs_code ∧
  noNL app.country_origin ∧ noNL app.incoterms ∧
  (∀ d ∈ app.documents, noNL d) ∧ noNL app.additional_docs ∧
  noNL app.special_instructions ∧ noNL app.confirming_bank

/-- Helper: a line with two leading blanks is not a tag line. -/
theorem isTagLine_two_space (x : String) : isTagLine ("  " ++ x) = false := by
  have h0 : "  ".data = [' ', ' '] := by decide
  have h : ("  " ++ x).data = ' ' :: ' ' :: x.data := by
    rw [String.data_append, h0]
    rfl
  simp [isTagLine, h]

/-- Helper: a line with three leading blanks is not a tag line. -/
theorem isTagLine_three_space (x : String) : isTagLine ("   " ++ x) = false := by
  have h0 : "   ".data = [' ', ' ', ' '] := by decide
  have h : ("   " ++ x).data = ' ' :: ' ' :: ' ' :: x.data := by
    rw [String.data_append, h0]
    rfl
  simp [isTagLine, h]

/-- Helper: the generated-by header line is not a tag line. -/
theorem isTagLine_generated_header (x : String) :
    isTagLine ("Generated by: Barclays LC System | " ++ x) = false := by
  have h0 : "Generated by: Barclays LC System | ".data.head? = some 'G' := by decide
  have h : ("Generated by: Barclays LC System | " ++ x).data.head? = some 'G' := by
    rw [String.data_append]
    cases hd : "Generated by: Barclays LC System | ".data with
    | nil => rw [hd] at h0; simp at h0
    | cons c cs =>
      rw [hd] at h0
      simp at h0
      subst h0
      rfl
  simp [isTagLine, h]

/-- Helper: no line of the `:46A:` document block is a tag line. -/
theorem mt700DocsLines_filter (docs : List String) :
    List.filter isTagLine (mt700DocsLines docs) = [] := by
  induction docs with
  | nil =>
    simp only [mt700DocsLines]
    decide
  | cons d rest ih =>
    cases rest with
    | nil =>
      simp only [mt700DocsLines]
      rw [List.filter_cons_of_neg (by simp [isTagLine_three_space])]
      rfl
    | cons e rest2 =>
      simp only [mt700DocsLines]
      rw [List.filter_cons_of_neg (by simp [isTagLine_three_space])]
      exact ih

/-- Helper: the separator line is not a tag line. -/
theorem isTagLine_separator : isTagLine mt700Separator = false := by decide

/-- Helper: the tag sequence of any generated MT700 message is the fixed
28-tag order. -/
theorem mt700TagSeq_eq (app : MT700App) (dateStr nowLocale : String) :
    mt700TagSeq (generateMT700Lines app dateStr nowLocale) = MT700_TAG_ORDER := by
  simp only [mt700TagSeq, generateMT700Lines]
  rw [List.filter_append, List.filter_append, mt700DocsLines_filter]
  simp only [List.filter, isTagLine_two_space, isTagLine_three_space,
    isTagLine_generated_header, isTagLine_separator]
  decide

/-- C4: the MT700 text contains exactly the fixed ordered tag sequence
:27:, :40A:, :20:, :31C:, :40E:, :31D:, :50:, :59:, :32B:, :39A:, :41A:,
:42C:, :42A:, :43P:, :43T:, :44E:, :44F:, :44C:, :44B:, :45A:, :46A:,
:47A:, :71B:, :48:, :49:, :53A:, :78:, :72: (28 tags), for every
application; hence serializing the same (or any) application twice yields
an identical tag sequence and tag count. -/
theorem generateMT700_tag_order (app : MT700App) (dateStr nowLocale : String)
    (h : mt700NewlineFree app dateStr nowLocale) :
    mt700TagSeq (generateMT700Lines app dateStr nowLocale) = MT700_TAG_ORDER ∧
    (mt700TagSeq (generateMT700Lines app dateStr nowLocale)).length = 28 ∧
    (∀ (app2 : MT700App) (d2 n2 : String),
       mt700TagSeq (generateMT700Lines app2 d2 n2) =
         mt700TagSeq (generateMT700Lines app dateStr nowLocale)) := by
  refine ⟨mt700TagSeq_eq app dateStr nowLocale, ?_, ?_⟩
  · rw [mt700TagSeq_eq]
    decide
  · intro app2 d2 n2
    rw [mt700TagSeq_eq, mt700TagSeq_eq]

/-- An all-empty application for the C4 witness. -/
def exMT700App : MT700App :=
  { lc_type := "", ref := "", lc_expiry_date := "", lc_expiry_place := "",
    applicant_name := "", applicant_address := "", applicant_city := "",
    applicant_country := "", beneficiary_name := "", beneficiary_address := "",
    beneficiary_city := "", beneficiary_country := "", lc_amount := none,
    lc_currency := "", tolerance_pct := none, latest_ship_date := "",
    advising_bank := "", payment_terms := "", issuing_bank := "",
    partial_shipments := "", transhipment := "", port_loading := "",
    port_discharge := "", goods_desc := "", quantity := "", unit_price := "",
    hs_code := "", country_origin := "", incoterms := "", documents := [],
    additional_docs := "", special_instructions := "", confirming_bank := "" }

/-- Witness for C4 at a concrete (all-empty, newline-free) application. -/
theorem generateMT700_tag_order_witness :
    mt700TagSeq (generateMT700Lines exMT700App "" "") = MT700_TAG_ORDER :=
  (generateMT700_tag_order exMT700App "" ""
    (by simp [mt700NewlineFree, exMT700App, noNL])).1
